import Mathlib

set_option maxRecDepth 100000

/-!
# Verification of the TM-Health bot risk-classification core (src/bot.py)

Shallow embedding of the decision logic of `bot.py`:

* `assess_risk` (bot.py lines 571-615): the keyword-based risk classifier.
* `professional_fallback_response` (lines 635-722): local template selection,
  crisis templates first.
* `generate_professional_response` (lines 512-569): risk assessment followed by
  either the external AI call (when enabled) or the local fallback.
* `handle_message` error path (lines 902-904): the fixed technical-difficulty
  reply.
* PHQ-9 scoring: the repository ships only the question list
  (`init_assessment_tools`, lines 476-510) and a caller
  (`handle_assessment_callback` is referenced but not defined in src), so the
  scoring/band logic is modelled from the spec where indicated.

Text is modelled as `List Char`; Python `phrase in message_lower` membership
test is substring containment, embedded as `decide (phrase <:+: message)`.
Python `str.lower()` is embedded with `Char.toLower`, which agrees with it on
the ASCII texts the lexicons and claims concern.
-/

/-- A text is a list of characters (the embedding of a Python `str`). -/
abbrev Text := List Char

/-- Python `p in s` substring test on lowercased text. -/
def containsPhrase (s : Text) (p : Text) : Bool := decide (p <:+: s)

/-- Python `message.lower()` (ASCII case folding). -/
def lowerStr (s : String) : Text := s.data.map Char.toLower

/-- The apostrophe character, written by code point. -/
def apos : Char := Char.ofNat 39

/-- The phrase `can&#39;t go on` from `high_risk_phrases` (bot.py line 594). -/
def cant_go_on : Text := "can".data ++ [apos] ++ "t go on".data

/-- The phrase `can&#39;t cope` from the DBT template keywords (bot.py line 685). -/
def cant_cope : Text := "can".data ++ [apos] ++ "t cope".data

/-- The embedding of `RiskLevel` enum (bot.py lines 60-64). -/
inductive RiskLevel
  | low
  | moderate
  | high
  | imminent
deriving DecidableEq, Repr

/-- The embedding of `CrisisType` enum (bot.py lines 66-72). -/
inductive CrisisType
  | suicide_ideation
  | suicide_plan
  | self_harm
  | severe_distress
  | psychosis
  | substance_crisis
deriving DecidableEq, Repr

/-- The dictionary built by `assess_risk` (bot.py lines 575-581). -/
structure RiskAssessment where
  level : RiskLevel
  crisis_type : Option CrisisType
  risk_factors : List Text
  protective_factors : List Text
  immediate_action_required : Bool
deriving DecidableEq, Repr

/-- Temporal/method keywords of the imminent-risk loop (bot.py line 584). -/
def imminent_keywords : List Text :=
  ["tonight".data, "today".data, "now".data, "soon".data, "plan".data,
   "method".data, "pills".data, "rope".data, "bridge".data]

/-- Lethality phrases of the inner imminent-risk loop (bot.py line 586). -/
def crisis_phrases : List Text :=
  ["kill myself".data, "suicide".data, "end it".data, "die".data]

/-- The embedding of `high_risk_phrases` (bot.py line 594). -/
def high_risk_phrases : List Text :=
  ["kill myself".data, "suicide".data, "want to die".data,
   "better off dead".data, cant_go_on]

/-- The embedding of `self_harm_phrases` (bot.py line 601). -/
def self_harm_phrases : List Text :=
  ["cut myself".data, "hurt myself".data, "self harm".data,
   "cutting".data, "burning".data]

/-- The embedding of `protective_phrases` (bot.py line 608). -/
def protective_phrases : List Text :=
  ["family".data, "friends".data, "pet".data, "future".data,
   "goals".data, "hope".data, "help".data]

/-- The embedding of `risk_phrases` (bot.py line 612). -/
def risk_phrases : List Text :=
  ["alone".data, "hopeless".data, "worthless".data, "failure".data,
   "burden".data, "trapped".data]

/-- The nested imminent-risk loop (bot.py lines 584-590) assigns IMMINENT
exactly when some temporal/method keyword and some lethality phrase are both
substrings of the lowercased message. -/
def imminentHit (ml : Text) : Bool :=
  imminent_keywords.any (containsPhrase ml) && crisis_phrases.any (containsPhrase ml)

/-- The HIGH-tier test (bot.py line 595). -/
def highHit (ml : Text) : Bool := high_risk_phrases.any (containsPhrase ml)

/-- The self-harm test (bot.py line 602). -/
def selfHarmHit (ml : Text) : Bool := self_harm_phrases.any (containsPhrase ml)

/-- The embedding of `assess_risk` (bot.py lines 571-615).  The `user_context` parameter is kept
with a fully generic type because the Python body never reads it. -/
def assess_risk {α : Type} (message : String) (_ctx : α) : RiskAssessment :=
  let ml := lowerStr message
  -- lines 584-590: imminent risk (sets level, crisis_type and the flag together)
  let lvl1 : RiskLevel := if imminentHit ml then .imminent else .low
  let ct1 : Option CrisisType := if imminentHit ml then some .suicide_plan else none
  let iar : Bool := imminentHit ml
  -- lines 593-597: high risk, only when not already imminent
  let lvl2 : RiskLevel :=
    if lvl1 ≠ RiskLevel.imminent then (if highHit ml then .high else lvl1) else lvl1
  let ct2 : Option CrisisType :=
    if lvl1 ≠ RiskLevel.imminent then
      (if highHit ml then some .suicide_ideation else ct1) else ct1
  -- lines 600-605: self-harm; upgrades LOW to MODERATE, always rewrites crisis_type
  let lvl3 : RiskLevel :=
    if selfHarmHit ml then (if lvl2 = RiskLevel.low then .moderate else lvl2) else lvl2
  let ct3 : Option CrisisType :=
    if selfHarmHit ml then some .self_harm else ct2
  { level := lvl3
    crisis_type := ct3
    -- lines 608-613: factor scans, list comprehensions over the phrase lists
    risk_factors := risk_phrases.filter (containsPhrase ml)
    protective_factors := protective_phrases.filter (containsPhrase ml)
    immediate_action_required := iar }

/-! ## Response composition (bot.py lines 512-569 and 635-770) -/

/-- The outbound reply of `generate_professional_response`, identified by which
template of `professional_fallback_response` produced it (the template bodies
are fixed strings of no logical consequence), or the AI model text. -/
inductive Response
  | ai (text : String)
  | crisisTemplate
  | highRiskTemplate
  | anxietyTemplate
  | depressionTemplate
  | dbtTemplate
  | generalTemplate
deriving DecidableEq, Repr

/-- Anxiety template keywords (bot.py line 652). -/
def anxiety_words : List Text :=
  ["anxious".data, "anxiety".data, "panic".data, "worry".data, "nervous".data]

/-- Depression template keywords (bot.py line 669). -/
def depression_words : List Text :=
  ["depressed".data, "sad".data, "empty".data, "hopeless".data, "worthless".data]

/-- DBT template keywords (bot.py line 685). -/
def dbt_words : List Text :=
  ["overwhelmed".data, cant_cope, "intense".data, "emotional".data]

/-- The embedding of `professional_fallback_response` (bot.py lines 635-722): crisis templates
first (IMMINENT, then HIGH), then the keyword-selected CBT/DBT templates,
then the general template. -/
def professional_fallback_response (message : String) (ra : RiskAssessment) :
    Response :=
  if ra.level = RiskLevel.imminent then .crisisTemplate
  else if ra.level = RiskLevel.high then .highRiskTemplate
  else
    let ml := lowerStr message
    if anxiety_words.any (containsPhrase ml) then .anxietyTemplate
    else if depression_words.any (containsPhrase ml) then .depressionTemplate
    else if dbt_words.any (containsPhrase ml) then .dbtTemplate
    else .generalTemplate

/-- Result of `generate_professional_response`: the reply, the risk assessment,
and a ghost flag recording whether `self.model.generate_content` was called
for this message. -/
structure GenResult where
  response : Response
  risk : RiskAssessment
  aiInvoked : Bool
deriving DecidableEq, Repr

/-- The embedding of `generate_professional_response` (bot.py lines 512-569).  `enabled` embeds
`self.enabled`; `aiResult` embeds the outcome of the awaited model call —
`some t` when it returns text `t`, `none` when it raises or returns empty text
(both of which fall back, lines 556-568).  When `enabled` is true the model is
invoked (inside the `try` block) before its outcome is examined, so
`aiInvoked = enabled`. -/
def generate_professional_response {α : Type} (enabled : Bool)
    (aiResult : Option String) (message : String) (ctx : α) : GenResult :=
  let ra := assess_risk message ctx
  if enabled then
    match aiResult with
    | some t => { response := .ai t, risk := ra, aiInvoked := true }
    | none =>
        { response := professional_fallback_response message ra
          risk := ra, aiInvoked := true }
  else
    { response := professional_fallback_response message ra
      risk := ra, aiInvoked := false }

/-! ## The message handler error path (bot.py lines 871-904) -/

/-- The fixed reply of the `except` branch of `handle_message` (bot.py line
904): `I&#39;m having a technical issue. If this is urgent, please call
Lifeline: 13 11 14`. -/
def handle_message_error_reply : Text :=
  "I".data ++ [apos] ++
    "m having a technical issue. If this is urgent, please call Lifeline: 13 11 14".data

/-- The three crisis hotline numbers of the crisis-protocol template
`generate_crisis_response` (bot.py lines 731-734): emergency services,
Lifeline, Kids Helpline. -/
def crisis_hotline_numbers : List Text :=
  ["000".data, "13 11 14".data, "1800 55 1800".data]

/-- The outcome `handle_message` reports to the user: either the reply of
successful processing, or text of the error branch.  `result` embeds the body
of the `try` block: `Except.error e` when any step of processing raises `e`. -/
def handle_message (result : Except String Response) : Text ⊕ Response :=
  match result with
  | .ok r => .inr r
  | .error _ => .inl handle_message_error_reply

/-! ## PHQ-9 screening -/

/-- The embedding of `phq_a_questions` (bot.py lines 479-489): the nine PHQ-A items. -/
def phq_a_questions : List String :=
  ["Little interest or pleasure in doing things",
   "Feeling down, depressed, or hopeless",
   "Trouble falling or staying asleep, or sleeping too much",
   "Feeling tired or having little energy",
   "Poor appetite or overeating",
   "Feeling bad about yourself or that you are a failure",
   "Trouble concentrating on things",
   "Moving or speaking slowly, or being fidgety/restless",
   "Thoughts that you would be better off dead or hurting yourself"]

/-- PHQ-9 severity bands. -/
inductive SeverityBand
  | minimal
  | mild
  | moderate
  | moderately_severe
  | severe
deriving DecidableEq, Repr

/-- Modelled from the spec: the repository source ships only the PHQ-9
question list (`init_assessment_tools`); the scoring code that the assessment
callbacks would run is absent from src, so the band table is taken from the
spec: 0-4 Minimal, 5-9 Mild, 10-14 Moderate, 15-19 Moderately severe,
20-27 Severe. -/
def phq9_band (total : ℕ) : SeverityBand :=
  if total ≤ 4 then .minimal
  else if total ≤ 9 then .mild
  else if total ≤ 14 then .moderate
  else if total ≤ 19 then .moderately_severe
  else .severe

/-- A completed screening result (spec §3). -/
structure ScreeningResult where
  totalScore : ℕ
  severityBand : SeverityBand
deriving DecidableEq, Repr

/-- Modelled from the spec: on completion `totalScore = sum(responses)` and
`severityBand` is derived from the band table. -/
def phq9_result (responses : List ℕ) : ScreeningResult :=
  { totalScore := responses.sum, severityBand := phq9_band responses.sum }


/-! ## Helper lemmas -/

lemma containsPhrase_iff {s p : Text} : containsPhrase s p = true ↔ p <:+: s := by
  rw [containsPhrase, decide_eq_true_iff]

lemma assess_risk_eq {α : Type} (m : String) (c : α) :
    assess_risk m c =
      { level :=
          if imminentHit (lowerStr m) then .imminent
          else if highHit (lowerStr m) then .high
          else if selfHarmHit (lowerStr m) then .moderate
          else .low
        crisis_type :=
          if selfHarmHit (lowerStr m) then some .self_harm
          else if imminentHit (lowerStr m) then some .suicide_plan
          else if highHit (lowerStr m) then some .suicide_ideation
          else none
        risk_factors := risk_phrases.filter (containsPhrase (lowerStr m))
        protective_factors := protective_phrases.filter (containsPhrase (lowerStr m))
        immediate_action_required := imminentHit (lowerStr m) } := by
  cases hI : imminentHit (lowerStr m) <;> cases hH : highHit (lowerStr m) <;>
    cases hS : selfHarmHit (lowerStr m) <;>
      simp [assess_risk, hI, hH, hS]

lemma toLower_of_isWhitespace {c : Char} (h : c.isWhitespace = true) :
    c.toLower = c := by
  have hc : ((c = ' ' ∨ c = '\t') ∨ c = '\r') ∨ c = '\n' := by
    simpa [Char.isWhitespace] using h
  rcases hc with ((hc | hc) | hc) | hc <;> subst hc <;> rfl

lemma lowerStr_ws {m : String} (h : ∀ c ∈ m.data, c.isWhitespace = true) :
    ∀ c ∈ lowerStr m, c.isWhitespace = true := by
  intro c hc
  rw [lowerStr, List.mem_map] at hc
  obtain ⟨d, hd, rfl⟩ := hc
  rw [toLower_of_isWhitespace (h d hd)]
  exact h d hd

lemma not_contains_of_ws {s p : Text} (hs : ∀ c ∈ s, c.isWhitespace = true)
    (hp : p.any (fun c => !c.isWhitespace) = true) :
    containsPhrase s p = false := by
  rw [← Bool.not_eq_true, containsPhrase_iff]
  intro hcon
  obtain ⟨c, hcp, hcw⟩ := List.any_eq_true.mp hp
  have hcs : c ∈ s := hcon.sublist.subset hcp
  rw [hs c hcs] at hcw
  exact Bool.false_ne_true (by simp at hcw)

lemma any_contains_eq_false_of_ws {m : String} (L : List Text)
    (hws : ∀ c ∈ lowerStr m, c.isWhitespace = true)
    (hL : ∀ p ∈ L, p.any (fun c => !c.isWhitespace) = true) :
    L.any (containsPhrase (lowerStr m)) = false := by
  rw [← Bool.not_eq_true, List.any_eq_true]
  rintro ⟨p, hp, hc⟩
  rw [not_contains_of_ws hws (hL p hp)] at hc
  exact Bool.false_ne_true hc

/-! ## Claim theorems -/

/-- C5: every `RiskAssessment` produced by `assess_risk` has
`immediate_action_required = true` exactly when its level is IMMINENT: the flag
and the level agree in both directions for every input text and context. -/
theorem C5_immediate_action_iff_imminent {α : Type} (m : String) (c : α) :
    (assess_risk m c).immediate_action_required = true ↔
      (assess_risk m c).level = RiskLevel.imminent := by
  rw [assess_risk_eq]
  cases hI : imminentHit (lowerStr m) <;> cases hH : highHit (lowerStr m) <;>
    cases hS : selfHarmHit (lowerStr m) <;> simp

/-- C5 witness: at a concrete imminent-risk input the equivalence transports a
level computation to the flag. -/
theorem C5_witness :
    (assess_risk "i bought a rope and i want to end it" ()).immediate_action_required
      = true :=
  (C5_immediate_action_iff_imminent "i bought a rope and i want to end it" ()).mpr
    (by decide)

/-- C9: the risk classification depends only on the message text — the
`user_context` argument is never read, so two calls with the same text and any
two contexts (of any types) return identical assessments; in particular the
classifier is deterministic on a fixed text. -/
theorem C9_context_independent {α β : Type} (m : String) (c₁ : α) (c₂ : β) :
    assess_risk m c₁ = assess_risk m c₂ := rfl

/-- C8: an empty or whitespace-only message is classified LOW with no crisis
type, empty factor lists, and no immediate action. -/
theorem C8_whitespace_gives_low {α : Type} (m : String) (c : α)
    (h : ∀ ch ∈ m.data, ch.isWhitespace = true) :
    assess_risk m c =
      { level := RiskLevel.low, crisis_type := none, risk_factors := []
        protective_factors := [], immediate_action_required := false } := by
  have hws := lowerStr_ws h
  have hall : ∀ p ∈ (imminent_keywords ++ crisis_phrases ++ high_risk_phrases ++
      self_harm_phrases ++ protective_phrases ++ risk_phrases),
      p.any (fun c => !c.isWhitespace) = true := by decide
  have hmem : ∀ (L : List Text),
      (∀ p ∈ L, p ∈ (imminent_keywords ++ crisis_phrases ++ high_risk_phrases ++
        self_harm_phrases ++ protective_phrases ++ risk_phrases)) →
      L.any (containsPhrase (lowerStr m)) = false := by
    intro L hL
    exact any_contains_eq_false_of_ws L hws (fun p hp => hall p (hL p hp))
  have hIk : imminent_keywords.any (containsPhrase (lowerStr m)) = false :=
    hmem _ (by intro p hp; simp [hp])
  have hCp : crisis_phrases.any (containsPhrase (lowerStr m)) = false :=
    hmem _ (by intro p hp; simp [hp])
  have hH : highHit (lowerStr m) = false := by
    rw [highHit]; exact hmem _ (by intro p hp; simp [hp])
  have hS : selfHarmHit (lowerStr m) = false := by
    rw [selfHarmHit]; exact hmem _ (by intro p hp; simp [hp])
  have hI : imminentHit (lowerStr m) = false := by
    rw [imminentHit, hIk]; rfl
  have hRf : risk_phrases.filter (containsPhrase (lowerStr m)) = [] := by
    rw [List.filter_eq_nil_iff]
    intro p hp hc
    have := not_contains_of_ws hws (hall p (by simp [hp]))
    rw [this] at hc
    exact Bool.false_ne_true hc
  have hPf : protective_phrases.filter (containsPhrase (lowerStr m)) = [] := by
    rw [List.filter_eq_nil_iff]
    intro p hp hc
    have := not_contains_of_ws hws (hall p (by simp [hp]))
    rw [this] at hc
    exact Bool.false_ne_true hc
  rw [assess_risk_eq, hI, hH, hS, hRf, hPf]
  rfl

/-- C8 witness: the classifier at the three-space message. -/
theorem C8_witness :
    assess_risk "   " () =
      { level := RiskLevel.low, crisis_type := none, risk_factors := []
        protective_factors := [], immediate_action_required := false } :=
  C8_whitespace_gives_low "   " () (by decide)

/-- C6: for every completed PHQ-9 answer sequence (length 9, each answer in
{0,1,2,3}) the screening result total equals the sum of the responses, lies
in [0,27], and the severity band follows the band table at each boundary:
0-4 Minimal, 5-9 Mild, 10-14 Moderate, 15-19 Moderately severe, 20-27 Severe.
The scoring code is absent from src, so it is modelled from the spec
(`phq9_result`, `phq9_band`); the nine-question length comes from the embedded
`phq_a_questions`. -/
theorem C6_phq9_scoring (rs : List ℕ) (hlen : rs.length = phq_a_questions.length)
    (hval : ∀ x ∈ rs, x ≤ 3) :
    (phq9_result rs).totalScore = rs.sum ∧
    (phq9_result rs).totalScore ≤ 27 ∧
    ((phq9_result rs).totalScore ≤ 4 →
      (phq9_result rs).severityBand = SeverityBand.minimal) ∧
    (5 ≤ (phq9_result rs).totalScore → (phq9_result rs).totalScore ≤ 9 →
      (phq9_result rs).severityBand = SeverityBand.mild) ∧
    (10 ≤ (phq9_result rs).totalScore → (phq9_result rs).totalScore ≤ 14 →
      (phq9_result rs).severityBand = SeverityBand.moderate) ∧
    (15 ≤ (phq9_result rs).totalScore → (phq9_result rs).totalScore ≤ 19 →
      (phq9_result rs).severityBand = SeverityBand.moderately_severe) ∧
    (20 ≤ (phq9_result rs).totalScore →
      (phq9_result rs).severityBand = SeverityBand.severe) := by
  have hs : (phq9_result rs).totalScore = rs.sum := rfl
  have hb : rs.sum ≤ 27 := by
    have h9 : rs.length = 9 := by rw [hlen]; rfl
    have := List.sum_le_card_nsmul rs 3 hval
    rw [h9] at this
    simpa using this
  refine ⟨hs, by rw [hs]; exact hb, ?_, ?_, ?_, ?_, ?_⟩ <;>
    · rw [hs]
      intros
      show phq9_band rs.sum = _
      unfold phq9_band
      split_ifs <;> first | rfl | omega

/-- C6 witness: a boundary sequence summing to 14 is Moderate, one summing to
15 is Moderately severe. -/
theorem C6_witness :
    (phq9_result [3, 2, 1, 0, 3, 2, 1, 0, 2]).totalScore = 14 ∧
    (phq9_result [3, 2, 1, 0, 3, 2, 1, 0, 2]).severityBand = SeverityBand.moderate ∧
    (phq9_result [3, 2, 1, 0, 3, 2, 1, 1, 2]).totalScore = 15 ∧
    (phq9_result [3, 2, 1, 0, 3, 2, 1, 1, 2]).severityBand
      = SeverityBand.moderately_severe := by
  have h14 := C6_phq9_scoring [3, 2, 1, 0, 3, 2, 1, 0, 2] (by decide) (by decide)
  have h15 := C6_phq9_scoring [3, 2, 1, 0, 3, 2, 1, 1, 2] (by decide) (by decide)
  refine ⟨by decide, ?_, by decide, ?_⟩
  · exact h14.2.2.2.2.1 (by decide) (by decide)
  · exact h15.2.2.2.2.2.1 (by decide) (by decide)

/-- C3 counterexample: a text holding both a temporal/method keyword and a
lethality phrase for which the classifier is IMMINENT but the crisis type is
SELF_HARM, not SUICIDE_PLAN — the later self-harm scan rewrites it. -/
theorem C3_counterexample :
    imminent_keywords.any
      (containsPhrase (lowerStr "i will kill myself tonight by cutting")) = true ∧
    crisis_phrases.any
      (containsPhrase (lowerStr "i will kill myself tonight by cutting")) = true ∧
    (assess_risk "i will kill myself tonight by cutting" ()).level
      = RiskLevel.imminent ∧
    (assess_risk "i will kill myself tonight by cutting" ()).crisis_type
      = some CrisisType.self_harm ∧
    (assess_risk "i will kill myself tonight by cutting" ()).crisis_type
      ≠ some CrisisType.suicide_plan := by
  decide

/-- C3 amended: the level is IMMINENT exactly when a temporal/method keyword
and a lethality phrase are both present; the crisis type is then SUICIDE_PLAN
provided no self-harm phrase is present (a self-harm phrase rewrites it to
SELF_HARM while the level stays IMMINENT). -/
theorem C3_imminent_characterisation {α : Type} (m : String) (c : α) :
    ((assess_risk m c).level = RiskLevel.imminent ↔
      imminentHit (lowerStr m) = true) ∧
    (imminentHit (lowerStr m) = true → selfHarmHit (lowerStr m) = false →
      (assess_risk m c).crisis_type = some CrisisType.suicide_plan) := by
  rw [assess_risk_eq]
  constructor
  · cases hI : imminentHit (lowerStr m) <;> cases hH : highHit (lowerStr m) <;>
      cases hS : selfHarmHit (lowerStr m) <;> simp
  · intro h1 h2
    simp [h1, h2]

/-- C3 witness: the example given in the spec evaluates to IMMINENT / SUICIDE_PLAN
through the amended characterisation. -/
theorem C3_witness :
    (assess_risk "I want to kill myself tonight, I have the pills" ()).level
      = RiskLevel.imminent ∧
    (assess_risk "I want to kill myself tonight, I have the pills" ()).crisis_type
      = some CrisisType.suicide_plan := by
  have h := C3_imminent_characterisation (α := Unit)
    "I want to kill myself tonight, I have the pills" ()
  exact ⟨h.1.mpr (by decide), h.2 (by decide) (by decide)⟩

/-- C4 counterexample: `i want to end it` holds the lethality-intent phrase
`end it` of the lethality lexicon and is not IMMINENT, yet the classifier
returns LOW, not HIGH — the HIGH tier tests a different phrase list
(`high_risk_phrases`), which does not claim this text. -/
theorem C4_counterexample :
    crisis_phrases.any (containsPhrase (lowerStr "i want to end it")) = true ∧
    (assess_risk "i want to end it" ()).level ≠ RiskLevel.imminent ∧
    (assess_risk "i want to end it" ()).level ≠ RiskLevel.high ∧
    (assess_risk "i want to end it" ()).level = RiskLevel.low := by
  decide

/-- C4 amended: for texts claiming a phrase of the own lexicon of the HIGH tier
`high_risk_phrases` and not classified IMMINENT, the level is HIGH, and the
crisis type is SUICIDE_IDEATION provided no self-harm phrase is present. -/
theorem C4_high_characterisation {α : Type} (m : String) (c : α)
    (hh : highHit (lowerStr m) = true)
    (hni : (assess_risk m c).level ≠ RiskLevel.imminent) :
    (assess_risk m c).level = RiskLevel.high ∧
    (selfHarmHit (lowerStr m) = false →
      (assess_risk m c).crisis_type = some CrisisType.suicide_ideation) := by
  have hI : imminentHit (lowerStr m) = false := by
    by_contra hcon
    rw [Bool.not_eq_false] at hcon
    apply hni
    rw [assess_risk_eq]
    simp [hcon]
  rw [assess_risk_eq] at hni ⊢
  constructor
  · simp [hI, hh]
  · intro hs
    simp [hI, hh, hs]

/-- C4 witness: the example given in the spec, which claims `kill myself` (a phrase of
both lexicons) and no temporal/method keyword. -/
theorem C4_witness :
    (assess_risk "I want to kill myself" ()).level = RiskLevel.high ∧
    (assess_risk "I want to kill myself" ()).crisis_type
      = some CrisisType.suicide_ideation := by
  have h := C4_high_characterisation (α := Unit) "I want to kill myself" ()
    (by decide) (by decide)
  exact ⟨h.1, h.2 (by decide)⟩

/-- C2 counterexample: a self-harm phrase co-occurring with a HIGH-tier phrase.
The level does stay HIGH, but the crisis type is rewritten to SELF_HARM and the
self-harm match is nowhere in `risk_factors` (which lists only matches of
`risk_phrases`, here none). -/
theorem C2_counterexample :
    selfHarmHit (lowerStr "i want to kill myself and i cut myself") = true ∧
    highHit (lowerStr "i want to kill myself and i cut myself") = true ∧
    (assess_risk "i want to kill myself and i cut myself" ()).level
      = RiskLevel.high ∧
    (assess_risk "i want to kill myself and i cut myself" ()).crisis_type
      = some CrisisType.self_harm ∧
    (assess_risk "i want to kill myself and i cut myself" ()).risk_factors
      = [] := by
  decide

/-- C2 amended: when a self-harm phrase is present the level is never
downgraded — it is IMMINENT or HIGH whenever the corresponding trigger is also
present — but the crisis type is rewritten to SELF_HARM, and `risk_factors`
can only hold members of `risk_phrases`, never a self-harm phrase. -/
theorem C2_self_harm_overwrite {α : Type} (m : String) (c : α)
    (hs : selfHarmHit (lowerStr m) = true) :
    (assess_risk m c).crisis_type = some CrisisType.self_harm ∧
    ((imminentHit (lowerStr m) = true ∨ highHit (lowerStr m) = true) →
      (assess_risk m c).level = RiskLevel.imminent ∨
      (assess_risk m c).level = RiskLevel.high) ∧
    (∀ p ∈ (assess_risk m c).risk_factors, p ∈ risk_phrases) := by
  rw [assess_risk_eq]
  refine ⟨by simp [hs], ?_, ?_⟩
  · rintro (h | h)
    · left; simp [h]
    · cases hI : imminentHit (lowerStr m)
      · right; simp [hI, h]
      · left; simp [hI]
  · intro p hp
    exact (List.mem_filter.mp hp).1

/-- C2 witness: a text claiming both a self-harm phrase and a HIGH-tier
phrase keeps level HIGH while the crisis type reads SELF_HARM. -/
theorem C2_witness :
    (assess_risk "i keep cutting and i want to die" ()).crisis_type
      = some CrisisType.self_harm ∧
    ((assess_risk "i keep cutting and i want to die" ()).level
        = RiskLevel.imminent ∨
     (assess_risk "i keep cutting and i want to die" ()).level
        = RiskLevel.high) := by
  have h := C2_self_harm_overwrite (α := Unit)
    "i keep cutting and i want to die" () (by decide)
  exact ⟨h.1, h.2.1 (Or.inr (by decide))⟩

/-- C1 counterexample: with the AI responder enabled and returning text, a
HIGH-risk message in normal handling is answered with the AI model text —
the model is invoked and the crisis-protocol template is not returned.  (The
crisis short-circuit lives only in `professional_fallback_response`.) -/
theorem C1_counterexample :
    (generate_professional_response true (some "ok") "I want to kill myself" ()).risk.level
      = RiskLevel.high ∧
    (generate_professional_response true (some "ok") "I want to kill myself" ()).aiInvoked
      = true ∧
    (generate_professional_response true (some "ok") "I want to kill myself" ()).response
      = Response.ai "ok" ∧
    (generate_professional_response true (some "ok") "I want to kill myself" ()).response
      ≠ Response.highRiskTemplate := by
  refine ⟨by decide, rfl, rfl, by decide⟩

/-- C1 amended: the crisis-protocol short-circuit holds only on the fallback
path.  When the AI responder is disabled it is not invoked and HIGH/IMMINENT
messages get their distinct crisis templates; when it is enabled it is invoked
for every message, its successful text is returned even at HIGH/IMMINENT, and
the crisis templates are used only when the call fails or returns no text. -/
theorem C1_crisis_short_circuit {α : Type} (m : String) (c : α)
    (aiR : Option String) :
    ((generate_professional_response false aiR m c).aiInvoked = false) ∧
    ((assess_risk m c).level = RiskLevel.imminent →
      (generate_professional_response false aiR m c).response
          = Response.crisisTemplate ∧
      (generate_professional_response true none m c).response
          = Response.crisisTemplate) ∧
    ((assess_risk m c).level = RiskLevel.high →
      (generate_professional_response false aiR m c).response
          = Response.highRiskTemplate ∧
      (generate_professional_response true none m c).response
          = Response.highRiskTemplate) ∧
    (∀ t, (generate_professional_response true (some t) m c).response
            = Response.ai t ∧
          (generate_professional_response true (some t) m c).aiInvoked = true) := by
  refine ⟨?_, ?_, ?_, fun t => ⟨rfl, rfl⟩⟩
  · cases aiR <;> rfl
  · intro h
    constructor <;>
      · show professional_fallback_response m (assess_risk m c) = _
        rw [professional_fallback_response, h]
        rfl
  · intro h
    constructor <;>
      · show professional_fallback_response m (assess_risk m c) = _
        rw [professional_fallback_response, h]
        rfl

/-- C1 witness: an imminent-risk message on the disabled-responder path gets
the crisis template without the model being invoked. -/
theorem C1_witness :
    (generate_professional_response false none
        "there is a bridge and i want to die" ()).response
      = Response.crisisTemplate ∧
    (generate_professional_response false none
        "there is a bridge and i want to die" ()).aiInvoked = false := by
  have h := C1_crisis_short_circuit (α := Unit)
    "there is a bridge and i want to die" () none
  exact ⟨(h.2.1 (by decide)).1, h.1⟩

/-- C7 counterexample: the technical-difficulty reply embeds only the Lifeline
number; the Kids Helpline and emergency numbers of the crisis-protocol
three hotlines of the crisis template are absent, so it does not embed three hotline
numbers. -/
theorem C7_counterexample :
    crisis_hotline_numbers =
      ["000".data, "13 11 14".data, "1800 55 1800".data] ∧
    containsPhrase handle_message_error_reply "13 11 14".data = true ∧
    containsPhrase handle_message_error_reply "000".data = false ∧
    containsPhrase handle_message_error_reply "1800 55 1800".data = false := by
  decide

/-- C7 amended: whenever handling a message fails, the user receives the one
fixed generic technical-difficulty reply — independent of the internal fault,
so no raw fault text reaches the user — and that reply embeds a single crisis
hotline number, Lifeline 13 11 14 (not three). -/
theorem C7_error_reply (e : String) :
    handle_message (Except.error e) = Sum.inl handle_message_error_reply ∧
    containsPhrase handle_message_error_reply "13 11 14".data = true := by
  exact ⟨rfl, by decide⟩

/-- C10: the benign text `I am planning a new diet` contains no lexicon phrase
as a whole space-separated word, yet substring matching claims `plan` inside
`planning` and `die` inside `diet`, and the classifier returns IMMINENT /
SUICIDE_PLAN with the immediate-action flag set. -/
theorem C10_substring_false_positive :
    assess_risk "I am planning a new diet" () =
      { level := RiskLevel.imminent
        crisis_type := some CrisisType.suicide_plan
        risk_factors := []
        protective_factors := []
        immediate_action_required := true } ∧
    containsPhrase (lowerStr "I am planning a new diet") "plan".data = true ∧
    containsPhrase (lowerStr "I am planning a new diet") "die".data = true ∧
    (∀ w ∈ (lowerStr "I am planning a new diet").splitOn ' ',
      ∀ p ∈ imminent_keywords ++ crisis_phrases ++ high_risk_phrases ++
          self_harm_phrases, w ≠ p) := by
  refine ⟨by decide, by decide, by decide, by decide⟩

/-- C7 witness: a concrete storage fault yields the fixed reply. -/
theorem C7_witness :
    handle_message (Except.error "database connection lost")
      = Sum.inl handle_message_error_reply :=
  (C7_error_reply "database connection lost").1

/-- C9 witness: the same text under two contexts of different types. -/
theorem C9_witness :
    assess_risk "i am stressed about exams" (0 : Nat)
      = assess_risk "i am stressed about exams" "some context" :=
  C9_context_independent "i am stressed about exams" 0 "some context"
